import Mathlib

/-!
Verification of the GCPAgent adventure-planning core (manager_gcp.py and the
gcp_agents package) against its natural-language specification.

The Python code is shallowly embedded:
* pydantic models (models_gcp.py) become Lean structures; Python `int` becomes
  `Int`; the `float` fields of WeatherAnalysis only ever hold whole-number
  constants in the code paths relevant here, so they are embedded as `Int`
  (exact for every constant that appears: 18.0, 27.0, 20.0, ...);
* the orchestration methods of AdventureManagerGCP become total functions
  parametrised by an environment of oracles, one per external-capability call
  (weather analysis, kid-friendly search, general search, plan synthesis);
  each oracle either returns a value or raises;
* in addition to its value, each stage function returns the list of external
  calls it performed, and the workflow driver prepends a marker event per
  stage, so that claims about "which capability was invoked" are statable;
* tracer (Observer) calls are no-ops in the main model; a second, explicitly
  exception-threaded model of `run` (the `...T` functions further below) makes
  every tracer call site an explicit potential raise point, for the claims
  about Observer failures.
-/

/-- CHILD_AGE_THRESHOLD from models_gcp.py. -/
def CHILD_AGE_THRESHOLD : Int := 12

/-- TripQuery from models_gcp.py: the input data structure. -/
structure TripQuery where
  start_date : String
  end_date : String
  location : String
  participant_number : Int
  participant_ages : List Int
  deriving DecidableEq, Repr

/-- TripContext from models_gcp.py. The `meets_child_threshold` field is a
pydantic field with `default=False`; nothing in manager_gcp.py ever assigns
it, so the embedding keeps the default. -/
structure TripContext where
  query : TripQuery
  meets_child_threshold : Bool := false
  deriving DecidableEq, Repr

/-- ActivityResult from models_gcp.py. -/
structure ActivityResult where
  name : String
  description : String
  location : String
  age_range : Option (List Int)
  price_range : Option String
  duration : Option String
  weather_dependent : Bool
  source_url : Option String
  deriving DecidableEq, Repr

/-- SearchResult from models_gcp.py. -/
structure SearchResult where
  activities : List ActivityResult
  search_summary : String
  deriving DecidableEq, Repr

/-- WeatherAnalysis from models_gcp.py (temperatures and precipitation chance
embedded as Int; every concrete value in the modelled paths is integral). -/
structure WeatherAnalysis where
  summary : String
  temperature_range : List Int
  precipitation_chance : Int
  recommended_clothing : List String
  weather_warnings : Option (List String) := none
  deriving DecidableEq, Repr

/-- ActivityRecommendation from models_gcp.py. -/
structure ActivityRecommendation where
  name : String
  description : String
  reasoning : String
  best_time : Option String := none
  weather_considerations : Option (List String) := none
  preparation_tips : Option (List String) := none
  source_url : Option String := none
  deriving DecidableEq, Repr

/-- TripPlan from models_gcp.py: the terminal artifact of a run. -/
structure TripPlan where
  location : String
  dates : String
  participants_summary : String
  weather_summary : String
  recommended_activities : List ActivityRecommendation
  packing_list : List String
  general_tips : List String
  deriving DecidableEq, Repr

/-- Does the character list start with the given pattern? (helper for the
embedding of the Python `in` substring operator). -/
def listStartsWith : List Char → List Char → Bool
  | [], _ => true
  | _ :: _, [] => false
  | a :: as, b :: bs => a == b && listStartsWith as bs

/-- Does the character list contain the pattern as a contiguous sublist? -/
def listContainsSub (pat : List Char) : List Char → Bool
  | [] => listStartsWith pat []
  | c :: rest => listStartsWith pat (c :: rest) || listContainsSub pat rest

/-- Embedding of the Python expression `pat in s` on strings. -/
def strContainsSub (s pat : String) : Bool :=
  listContainsSub pat.data s.data

/-- Embedding of Python `str(list_of_ints)`, e.g. `[8, 10]`. -/
def pyIntList (l : List Int) : String :=
  "[" ++ String.intercalate ", " (l.map toString) ++ "]"

/-- check_child_threshold returns this dict (search_agent_gcp.py lines 39-49). -/
structure ChildCheck where
  meets_threshold : Bool
  children_ages : List Int
  threshold : Int
  recommendation : String
  deriving DecidableEq, Repr

/-- check_child_threshold from search_agent_gcp.py (threshold defaults to
CHILD_AGE_THRESHOLD at its call sites). -/
def check_child_threshold (participant_ages : List Int) (threshold : Int) : ChildCheck :=
  let has_children := participant_ages.any (fun age => decide (age < threshold))
  { meets_threshold := has_children
    children_ages := participant_ages.filter (fun age => decide (age < threshold))
    threshold := threshold
    recommendation := if has_children then "kid_friendly_agent" else "continue_general_search" }

/-- The inline routing predicate of AdventureManagerGCP._search_for_activities
(manager_gcp.py line 298): `any(age < CHILD_AGE_THRESHOLD for age in ...)`. -/
def hasChildrenPred (participant_ages : List Int) : Bool :=
  participant_ages.any (fun age => decide (age < CHILD_AGE_THRESHOLD))

/-- get_weather_mock from weather_agent_gcp.py lines 128-142. -/
def get_weather_mock (location start_date end_date : String) : WeatherAnalysis :=
  { summary := "Weather forecast for " ++ (location ++ (" from " ++ (start_date ++ (" to " ++
      (end_date ++ ": Expected to have mild, pleasant conditions with comfortable temperatures throughout your visit. Perfect weather for outdoor activities and sightseeing. (Note: This is demo data - add your Google AI API key for real weather forecasts)")))))
    temperature_range := [18, 27]
    precipitation_chance := 20
    recommended_clothing :=
      [ "Comfortable walking shoes"
      , "Layered clothing for temperature changes"
      , "Light jacket or sweater for evenings"
      , "Sun protection (hat, sunglasses)"
      , "Comfortable day pack" ]
    weather_warnings := none }

/-- Outcome of a call into an external capability (a Gemini model interaction
or an agent method): either a returned value or a raised exception. -/
inductive ExtResult (α : Type) where
  | ok (a : α) : ExtResult α
  | exn : ExtResult α
  deriving DecidableEq, Repr

/-- SearchAgentGCP._create_fallback_response from search_agent_gcp.py lines
232-291. (The Python method also receives the accumulated web-search results
but ignores them, so the parameter is omitted here.) -/
def sa_create_fallback_response (ctx : TripContext) : SearchResult :=
  { activities :=
      [ { name := "Walking Tour of " ++ ctx.query.location
          description := "Explore the city center and main attractions on foot"
          location := ctx.query.location
          age_range := some [5, 99]
          price_range := some "Free - $30"
          duration := some "2-3 hours"
          weather_dependent := true
          source_url := none }
      , { name := "Local Museum Visit"
          description := "Visit a popular local museum or cultural center"
          location := ctx.query.location
          age_range := some [8, 99]
          price_range := some "$10 - $25"
          duration := some "1-2 hours"
          weather_dependent := false
          source_url := none }
      , { name := "Scenic Viewpoint or Landmark"
          description := "Visit iconic landmarks and scenic viewing spots"
          location := ctx.query.location
          age_range := some [5, 99]
          price_range := some "Free - $15"
          duration := some "1-2 hours"
          weather_dependent := true
          source_url := none }
      , { name := "Local Food Experience"
          description := "Try local cuisine, food markets, or popular restaurants"
          location := ctx.query.location
          age_range := some [12, 99]
          price_range := some "$15 - $50"
          duration := some "1-3 hours"
          weather_dependent := false
          source_url := none }
      , { name := "Entertainment District"
          description := "Explore entertainment areas, theaters, or nightlife"
          location := ctx.query.location
          age_range := some [18, 99]
          price_range := some "$20 - $80"
          duration := some "2-4 hours"
          weather_dependent := false
          source_url := none } ]
    search_summary := "Fallback activities suggested for " ++ ctx.query.location }

/-- SearchAgentGCP.search_activities (search_agent_gcp.py lines 126-199),
abstracted over the Gemini chat interaction: `outcome` is what the
try-block's model conversation produced. If any exception is raised during
it, the except handler returns the local fallback response; otherwise the
loop's resulting SearchResult (which may have an empty activity list, e.g.
the early return at lines 175-179) is returned as-is. -/
def sa_search_activities (outcome : ExtResult SearchResult) (ctx : TripContext) : SearchResult :=
  match outcome with
  | ExtResult.ok r => r
  | ExtResult.exn => sa_create_fallback_response ctx

/-- The seven location-independent base activities built in
KidFriendlyAgentGCP._parse_kid_friendly_response (kid_friendly_agent_gcp.py
lines 90-161). -/
def kid_base_activities (loc : String) : List ActivityResult :=
  [ { name := "Children\x27s Museum in " ++ loc
      description := "Interactive exhibits designed for young learners with hands-on science, art, and cultural displays"
      location := loc
      age_range := some [2, 12]
      price_range := some "$8-15 per child"
      duration := some "2-3 hours"
      weather_dependent := false
      source_url := none }
  , { name := "Local Zoo or Aquarium"
      description := "Wildlife viewing and educational programs perfect for families"
      location := loc
      age_range := some [1, 99]
      price_range := some "$15-25 per person"
      duration := some "3-4 hours"
      weather_dependent := true
      source_url := none }
  , { name := "Family-Friendly Park in " ++ loc
      description := "Safe playground, walking paths, and green space for children to play and explore"
      location := loc
      age_range := some [1, 16]
      price_range := some "Free"
      duration := some "1-4 hours"
      weather_dependent := true
      source_url := none }
  , { name := "Library or Community Center"
      description := "Story time sessions, children\x27s programs, and quiet indoor activities"
      location := loc
      age_range := some [2, 12]
      price_range := some "Free"
      duration := some "1-2 hours"
      weather_dependent := false
      source_url := none }
  , { name := "Mini Golf or Family Entertainment Center"
      description := "Fun, low-skill activities that children and adults can enjoy together"
      location := loc
      age_range := some [4, 99]
      price_range := some "$8-12 per person"
      duration := some "1-2 hours"
      weather_dependent := false
      source_url := none }
  , { name := "Science Center or Discovery Center"
      description := "Hands-on learning experiences with interactive science and technology exhibits"
      location := loc
      age_range := some [5, 16]
      price_range := some "$12-20 per person"
      duration := some "2-4 hours"
      weather_dependent := false
      source_url := none }
  , { name := "Indoor Play Center or Arcade"
      description := "Safe indoor entertainment with games, climbing areas, and age-appropriate activities"
      location := loc
      age_range := some [3, 14]
      price_range := some "$10-18 per child"
      duration := some "2-3 hours"
      weather_dependent := false
      source_url := none } ]

/-- KidFriendlyAgentGCP._parse_kid_friendly_response (kid_friendly_agent_gcp.py
lines 83-199). The response text received from the model is accepted as a
parameter but, exactly as in the source, never used: the method always builds
the fixed base catalog plus location-keyed extras. -/
def parse_kid_friendly_response (_responseText : String) (ctx : TripContext)
    (children_ages : List Int) : SearchResult :=
  let locLower := ctx.query.location.toLower
  let activities := kid_base_activities ctx.query.location
    ++ (if strContainsSub locLower "beach" || strContainsSub locLower "coast" then
          [ { name := "Beach Family Day"
              description := "Safe beach activities including sandcastle building and shallow water play"
              location := ctx.query.location
              age_range := some [3, 99]
              price_range := some "Free"
              duration := some "2-5 hours"
              weather_dependent := true
              source_url := none } ]
        else [])
    ++ (if strContainsSub locLower "mountain" || strContainsSub locLower "nature"
          || strContainsSub locLower "park" then
          [ { name := "Easy Nature Walk"
              description := "Short, family-friendly hiking trail with educational nature stops"
              location := ctx.query.location
              age_range := some [4, 99]
              price_range := some "Free"
              duration := some "1-2 hours"
              weather_dependent := true
              source_url := none } ]
        else [])
  { activities := activities
    search_summary := "Found " ++ (toString activities.length ++ (" kid-friendly activities in "
      ++ (ctx.query.location ++ (" suitable for children ages " ++ (pyIntList children_ages
      ++ ". All activities prioritize safety, education, and family engagement."))))) }

/-- KidFriendlyAgentGCP._create_fallback_kid_activities
(kid_friendly_agent_gcp.py lines 201-230). -/
def create_fallback_kid_activities (ctx : TripContext) (children_ages : List Int) : SearchResult :=
  { activities :=
      [ { name := "Local Playground Visit"
          description := "Safe playground equipment appropriate for young children"
          location := ctx.query.location
          age_range := some [2, 12]
          price_range := some "Free"
          duration := some "1-2 hours"
          weather_dependent := true
          source_url := none }
      , { name := "Indoor Family Activity Center"
          description := "Climate-controlled space with kid-friendly activities"
          location := ctx.query.location
          age_range := some [3, 12]
          price_range := some "$10-20"
          duration := some "2-3 hours"
          weather_dependent := false
          source_url := none } ]
    search_summary := "Basic kid-friendly activities for children ages " ++ pyIntList children_ages }

/-- KidFriendlyAgentGCP.find_kid_friendly_activities (kid_friendly_agent_gcp.py
lines 17-81), abstracted over the Gemini call: on a returned response text the
parsing path runs, on a raised exception the fallback path runs. -/
def find_kid_friendly_activities (modelOutcome : ExtResult String) (ctx : TripContext) : SearchResult :=
  let children_ages := ctx.query.participant_ages.filter (fun age => decide (age < CHILD_AGE_THRESHOLD))
  match modelOutcome with
  | ExtResult.ok text => parse_kid_friendly_response text ctx children_ages
  | ExtResult.exn => create_fallback_kid_activities ctx children_ages

/-- The time-of-day slot list of RecommendationAgentGCP._parse_trip_plan_response
(recommender_agent_gcp.py line 162). -/
def rec_times_supplement : List String :=
  ["Morning", "Late Morning", "Afternoon", "Late Afternoon", "Evening"]

/-- The time-of-day slot list of RecommendationAgentGCP._create_fallback_trip_plan
(recommender_agent_gcp.py line 274). -/
def rec_times_fallback : List String :=
  ["Morning", "Afternoon", "Evening", "Anytime", "Mid-day"]

/-- Rendering of Python `i-j` for the two temperature bounds in strings such
as "Temperature: 18-27°C" (the source prints floats; the embedded Int values
print without the trailing ".0", which no claim depends on). -/
def tempRangeText (w : WeatherAnalysis) : String :=
  "Temperature: " ++ (toString (w.temperature_range.getD 0 0) ++ ("-"
    ++ (toString (w.temperature_range.getD 1 0) ++ "°C")))

/-- The supplement wrapper in the `while len(recommended_activities) < 5` loop
of _parse_trip_plan_response (recommender_agent_gcp.py lines 159-180), applied
to search activity number `i` (0-based). -/
def rec_supplement_recommendation (w : WeatherAnalysis) (i : Nat) (a : ActivityResult) :
    ActivityRecommendation :=
  { name := a.name
    description := a.description
    reasoning := "Recommended as activity #" ++ (toString (i + 1)
      ++ (" - complements your itinerary with "
      ++ ((if a.weather_dependent then "outdoor" else "indoor") ++ " options.")))
    best_time := some (rec_times_supplement.getD (i % rec_times_supplement.length) "")
    weather_considerations := some (if a.weather_dependent then
        [ tempRangeText w
        , "Rain chance: " ++ (toString w.precipitation_chance ++ "%") ]
      else ["Indoor activity - weather independent"])
    preparation_tips := some
      [ "Check opening hours in advance"
      , "Bring essentials and comfortable shoes"
      , "Consider booking ahead if popular" ]
    source_url := a.source_url }

/-- Embedding of Python `list(set(xs))` on the packing list. Python's set
iteration order is unspecified; the embedding fixes first-occurrence order.
No claim depends on the order of this field. -/
def pySetList (xs : List String) : List String := xs.eraseDups

/-- RecommendationAgentGCP._parse_trip_plan_response (recommender_agent_gcp.py
lines 103-241), abstracted over the regex extraction of the model's response
text: `parsed` is the list of ActivityRecommendation records built from the
`ACTIVITY n:` matches (the source caps them at five with `[:5]`, mirrored by
`take 5` here). Everything after the extraction is embedded directly. -/
def rec_parse_trip_plan_response (parsed : List ActivityRecommendation) (ctx : TripContext)
    (search_results : SearchResult) (weather_info : WeatherAnalysis) : TripPlan :=
  let recsAI := parsed.take 5
  let padCount := min 5 search_results.activities.length
  let recommended := recsAI ++ ((List.range padCount).drop recsAI.length).filterMap
    (fun i => (search_results.activities.get? i).map (rec_supplement_recommendation weather_info i))
  let hasKids := ctx.query.participant_ages.any (fun age => decide (age < 12))
  let hasElderly := ctx.query.participant_ages.any (fun age => decide (age > 65))
  let packing := weather_info.recommended_clothing
    ++ [ "Comfortable walking shoes", "Water bottle", "Snacks", "Phone charger"
       , "Camera", "Cash/cards", "Sunscreen", "First aid kit" ]
    ++ (if weather_info.precipitation_chance > 40 then ["Umbrella", "Rain jacket"] else [])
    ++ (if hasKids then
          [ "Child-friendly snacks", "Entertainment for kids", "Wet wipes"
          , "Extra clothes for children" ]
        else [])
  let tips := [ "Check weather forecast before heading out - "
                  ++ (toString weather_info.precipitation_chance ++ "% chance of rain")
              , "Book activities in advance during peak season"
              , "Keep emergency contacts handy"
              , "Stay hydrated and take breaks as needed" ]
    ++ (if hasKids then
          [ "Plan for shorter activity durations with children"
          , "Locate nearby restrooms and family facilities" ]
        else [])
    ++ (if hasElderly then
          [ "Consider accessibility of venues", "Plan rest periods between activities" ]
        else [])
    ++ (match weather_info.weather_warnings with
        | some ws => ws
        | none => [])
  { location := ctx.query.location
    dates := ctx.query.start_date ++ (" to " ++ ctx.query.end_date)
    participants_summary := toString ctx.query.participant_number
      ++ (" participants (ages: "
      ++ (String.intercalate ", " (ctx.query.participant_ages.map toString) ++ ")"))
    weather_summary := weather_info.summary
    recommended_activities := recommended
    packing_list := pySetList packing
    general_tips := tips }

/-- The per-activity wrapper of RecommendationAgentGCP._create_fallback_trip_plan
(recommender_agent_gcp.py lines 272-284). -/
def rec_fallback_recommendation (i : Nat) (a : ActivityResult) : ActivityRecommendation :=
  { name := a.name
    description := a.description
    reasoning := "Selected as activity #" ++ (toString (i + 1)
      ++ " for the trip - suitable for your group")
    best_time := some (rec_times_fallback.getD (i % rec_times_fallback.length) "")
    weather_considerations := some (if a.weather_dependent then
        ["Check weather before departure"] else ["Indoor activity - weather independent"])
    preparation_tips := some ["Bring essentials", "Arrive early", "Check operating hours"]
    source_url := a.source_url }

/-- RecommendationAgentGCP._create_fallback_trip_plan (recommender_agent_gcp.py
lines 260-294). -/
def rec_create_fallback_trip_plan (ctx : TripContext) (search_results : SearchResult)
    (weather_info : WeatherAnalysis) : TripPlan :=
  let n := min 5 search_results.activities.length
  let recommended := (List.range n).filterMap
    (fun i => (search_results.activities.get? i).map (rec_fallback_recommendation i))
  { location := ctx.query.location
    dates := ctx.query.start_date ++ (" to " ++ ctx.query.end_date)
    participants_summary := toString ctx.query.participant_number ++ " participants"
    weather_summary := weather_info.summary
    recommended_activities := recommended
    packing_list := ["Comfortable clothing", "Walking shoes", "Water", "Snacks"]
    general_tips := ["Check weather forecast", "Bring essentials", "Have a great trip!"] }

/-- RecommendationAgentGCP.create_trip_plan (recommender_agent_gcp.py lines
18-101), abstracted over the Gemini call: on success the parsing path runs on
the extracted activities, on a raised exception the fallback path runs. -/
def rec_create_trip_plan (modelOutcome : ExtResult (List ActivityRecommendation))
    (ctx : TripContext) (search_results : SearchResult) (weather_info : WeatherAnalysis) :
    TripPlan :=
  match modelOutcome with
  | ExtResult.ok parsed => rec_parse_trip_plan_response parsed ctx search_results weather_info
  | ExtResult.exn => rec_create_fallback_trip_plan ctx search_results weather_info

/-- AdventureManagerGCP._create_fallback_search_results (manager_gcp.py lines
394-454). -/
def create_fallback_search_results (ctx : TripContext) : SearchResult :=
  { activities :=
      [ { name := "Explore Downtown " ++ ctx.query.location
          description := "Walk around the city center and discover local attractions"
          location := ctx.query.location
          age_range := some [5, 99]
          price_range := some "Free"
          duration := some "2-4 hours"
          weather_dependent := true
          source_url := none }
      , { name := "Visit Local Museum"
          description := "Learn about local history and culture"
          location := ctx.query.location
          age_range := some [8, 99]
          price_range := some "$10-20"
          duration := some "1-3 hours"
          weather_dependent := false
          source_url := none }
      , { name := "Local Park and Recreation"
          description := "Enjoy outdoor activities and green spaces"
          location := ctx.query.location
          age_range := some [3, 99]
          price_range := some "Free"
          duration := some "2-4 hours"
          weather_dependent := true
          source_url := none }
      , { name := "Shopping and Local Markets"
          description := "Browse local shops, markets, and unique boutiques"
          location := ctx.query.location
          age_range := some [10, 99]
          price_range := some "$20-100"
          duration := some "2-3 hours"
          weather_dependent := false
          source_url := none }
      , { name := "Cultural Center or Gallery"
          description := "Experience local art, culture, and community events"
          location := ctx.query.location
          age_range := some [12, 99]
          price_range := some "$5-25"
          duration := some "1-2 hours"
          weather_dependent := false
          source_url := none } ]
    search_summary := "Basic activity suggestions for " ++ ctx.query.location }

/-- AdventureManagerGCP._create_fallback_plan (manager_gcp.py lines 456-504). -/
def create_fallback_plan (ctx : TripContext) : TripPlan :=
  { location := ctx.query.location
    dates := ctx.query.start_date ++ (" to " ++ ctx.query.end_date)
    participants_summary := toString ctx.query.participant_number ++ " participants"
    weather_summary := "Weather information for " ++ (ctx.query.location ++ " during your visit")
    recommended_activities :=
      [ { name := "Explore " ++ ctx.query.location
          description := "Discover the local area and main attractions"
          reasoning := "A versatile activity suitable for most travelers"
          best_time := some "Morning or afternoon"
          weather_considerations := some ["Check local weather forecast"]
          preparation_tips := some ["Wear comfortable shoes", "Bring water"]
          source_url := none } ]
    packing_list :=
      [ "Comfortable walking shoes", "Weather-appropriate clothing", "Water bottle"
      , "Snacks", "Phone and charger", "Camera", "Cash and cards" ]
    general_tips :=
      [ "Check local weather before heading out"
      , "Research local customs and etiquette"
      , "Keep emergency contacts handy"
      , "Stay hydrated and take breaks as needed"
      , "Have a wonderful trip!" ] }

/-- The context construction of run() (manager_gcp.py line 98):
`TripContext(query=query)`, leaving meets_child_threshold at its pydantic
default of False. -/
def makeTripContext (query : TripQuery) : TripContext :=
  { query := query }

/-- Environment of external-capability calls available to the manager: the
weather agent's analyze_weather, the kid-friendly agent's
find_kid_friendly_activities, the general agent's search_activities and the
recommendation agent's create_trip_plan. Each call may return a value or
raise. -/
structure Env where
  analyzeWeather : TripContext → ExtResult WeatherAnalysis
  kidSearch : TripContext → String → ExtResult SearchResult
  generalSearch : TripContext → String → ExtResult SearchResult
  synthesize : TripContext → SearchResult → WeatherAnalysis → ExtResult TripPlan

/-- Observable events of one run: one marker per stage entered, plus one
event per external-capability call performed. -/
inductive Event where
  | stageWeather
  | stageSearch
  | stageSynthesize
  | callAnalyzeWeather
  | callKidSearch
  | callGeneralSearch
  | callSynthesize
  deriving DecidableEq, Repr

/-- AdventureManagerGCP._get_weather_info (manager_gcp.py lines 125-169) with
use_real_weather=False (the default; no claim involves the MCP branch). If
the agents were not initialised, basic mock data is used without an external
call; otherwise analyze_weather is called, and on an exception the handler
falls back to the same mock data. Returns the analysis and the external
calls performed. -/
def getWeatherInfo (agents_initialized : Bool) (env : Env) (ctx : TripContext) :
    WeatherAnalysis × List Event :=
  if agents_initialized = false then
    (get_weather_mock ctx.query.location ctx.query.start_date ctx.query.end_date, [])
  else
    (match env.analyzeWeather ctx with
     | ExtResult.ok w => w
     | ExtResult.exn =>
       get_weather_mock ctx.query.location ctx.query.start_date ctx.query.end_date,
     [Event.callAnalyzeWeather])

/-- AdventureManagerGCP._search_for_activities (manager_gcp.py lines 289-346).
Routing inspects `any(age < CHILD_AGE_THRESHOLD ...)` recomputed from the
query (not ctx.meets_child_threshold). On an exception from the invoked
agent the handler returns the local fallback results; a returned
SearchResult is adopted unconditionally. The weather summary string is the
argument the agents receive. Returns ((result, agent name), calls). -/
def searchForActivities (agents_initialized : Bool) (env : Env) (ctx : TripContext)
    (weather_summary : String) : (SearchResult × String) × List Event :=
  if agents_initialized = false then
    ((create_fallback_search_results ctx, "Fallback Agent"), [])
  else
    if hasChildrenPred ctx.query.participant_ages then
      ((match env.kidSearch ctx weather_summary with
        | ExtResult.ok r => (r, "Kid-Friendly Agent")
        | ExtResult.exn => (create_fallback_search_results ctx, "Fallback Agent")),
       [Event.callKidSearch])
    else
      ((match env.generalSearch ctx weather_summary with
        | ExtResult.ok r => (r, "Activity Search Agent")
        | ExtResult.exn => (create_fallback_search_results ctx, "Fallback Agent")),
       [Event.callGeneralSearch])

/-- AdventureManagerGCP._generate_trip_plan (manager_gcp.py lines 348-392).
On an exception from create_trip_plan the handler returns the local fallback
plan; a returned TripPlan is adopted unconditionally. -/
def generateTripPlan (agents_initialized : Bool) (env : Env) (ctx : TripContext)
    (search_results : SearchResult) (weather_info : WeatherAnalysis) : TripPlan × List Event :=
  if agents_initialized = false then
    (create_fallback_plan ctx, [])
  else
    (match env.synthesize ctx search_results weather_info with
     | ExtResult.ok p => p
     | ExtResult.exn => create_fallback_plan ctx,
     [Event.callSynthesize])

/-- AdventureManagerGCP.run (manager_gcp.py lines 72-123) with tracer calls
elided (modelled as non-raising; the `...T` model below makes them explicit).
The context is built as `TripContext(query=query)`, leaving
meets_child_threshold at its default. The three stages run in sequence; each
stage recovers locally from the raises of its external call, so this
function is total. Returns the plan and the event trace. -/
def runT (agents_initialized : Bool) (env : Env) (query : TripQuery) : TripPlan × List Event :=
  let trip_context : TripContext := makeTripContext query
  let wres := getWeatherInfo agents_initialized env trip_context
  let sres := searchForActivities agents_initialized env trip_context wres.1.summary
  let gres := generateTripPlan agents_initialized env trip_context sres.1.1 wres.1
  (gres.1,
    [Event.stageWeather] ++ wres.2 ++ [Event.stageSearch] ++ sres.2
      ++ [Event.stageSynthesize] ++ gres.2)

/-- The plan returned by run (discarding the ghost event trace). -/
def runPlan (agents_initialized : Bool) (env : Env) (query : TripQuery) : TripPlan :=
  (runT agents_initialized env query).1

/-- Oracles for the repository-level composition: each field abstracts one
Gemini interaction inside the respective agent. The agents' own exception
handlers (which never re-raise) are embedded code, so the manager-level
capability calls built from a DeepEnv never raise. analyze_weather performs
no model call in the source (it is a deterministic location-keyed mock); its
outcome is still an oracle here because the claims only concern how the
manager handles its success or failure. -/
structure DeepEnv where
  weatherOutcome : ExtResult WeatherAnalysis
  generalOutcome : ExtResult SearchResult
  kidModelText : ExtResult String
  recModelParsed : ExtResult (List ActivityRecommendation)

/-- The manager environment realised by the repository's agents
(weather_agent_gcp.py, search_agent_gcp.py, kid_friendly_agent_gcp.py,
recommender_agent_gcp.py) over the Gemini oracles of a DeepEnv. -/
def envOfDeep (d : DeepEnv) : Env :=
  { analyzeWeather := fun _ => d.weatherOutcome
    kidSearch := fun ctx _ => ExtResult.ok (find_kid_friendly_activities d.kidModelText ctx)
    generalSearch := fun ctx _ => ExtResult.ok (sa_search_activities d.generalOutcome ctx)
    synthesize := fun ctx sr w => ExtResult.ok (rec_create_trip_plan d.recModelParsed ctx sr w) }

/-- run() with agents initialised, composed with the repository's agent code
over the Gemini oracles. -/
def runDeep (d : DeepEnv) (query : TripQuery) : TripPlan × List Event :=
  runT true (envOfDeep d) query

/-- The tracer (Observer) call sites of AdventureManagerGCP, in source order:
run (lines 85, 116, 121-122), _get_weather_info (lines 128, 137, 157, 159,
166, 168), _search_for_activities (lines 303, 307, 316, 323, 328, 337, 345)
and _generate_trip_plan (lines 360, 367, 377, 381, 390, 391). -/
inductive TraceSite where
  | startWorkflow
  | completeWorkflowOk
  | wmLogError
  | completeWorkflowFail
  | wStartAgent
  | wCompleteBasic
  | wLogTool
  | wCompleteOk
  | wLogError
  | wCompleteFallback
  | sHandoff
  | sStartAgentKid
  | sCompleteKid
  | sStartAgentGeneral
  | sLogToolGeneral
  | sCompleteGeneral
  | sLogError
  | gStartAgent
  | gLogTool
  | gLogResponse
  | gCompleteOk
  | gLogError
  | gCompleteFail
  deriving DecidableEq, Repr

/-- Behaviour of the Observer in one run: for each tracer call site, whether
that call raises. -/
def TracerEnv : Type := TraceSite → Bool

/-- One tracer call: raises (error) or returns. -/
def tcall (tenv : TracerEnv) (s : TraceSite) : Except Unit Unit :=
  if tenv s then Except.error () else Except.ok ()

/-- _get_weather_info with every tracer call site explicit. The try block of
lines 143-163 is the inner match scrutinee; its except handler (lines
164-169) catches both an analyze_weather raise and a raise of a tracer call
inside the try. The start_agent call of line 128 is outside that try, so its
raise propagates to run()'s handler. -/
def getWeatherInfoT (tenv : TracerEnv) (agents_initialized : Bool) (env : Env)
    (ctx : TripContext) : Except Unit WeatherAnalysis := do
  tcall tenv TraceSite.wStartAgent
  if agents_initialized = false then do
    tcall tenv TraceSite.wCompleteBasic
    pure (get_weather_mock ctx.query.location ctx.query.start_date ctx.query.end_date)
  else
    match ((do
        tcall tenv TraceSite.wLogTool
        match env.analyzeWeather ctx with
        | ExtResult.ok w => do
          tcall tenv TraceSite.wCompleteOk
          pure w
        | ExtResult.exn => Except.error ()) : Except Unit WeatherAnalysis) with
    | Except.ok w => pure w
    | Except.error _ => do
      tcall tenv TraceSite.wLogError
      tcall tenv TraceSite.wCompleteFallback
      pure (get_weather_mock ctx.query.location ctx.query.start_date ctx.query.end_date)

/-- _search_for_activities with every tracer call site explicit. The try of
lines 300-341 encloses the routing branches together with their tracer
calls; its except handler (lines 343-346) performs one tracer call of its
own (log_error) before returning the fallback, so a raise of that call
propagates to run()'s handler. -/
def searchForActivitiesT (tenv : TracerEnv) (agents_initialized : Bool) (env : Env)
    (ctx : TripContext) (weather_summary : String) : Except Unit (SearchResult × String) := do
  if agents_initialized = false then
    pure (create_fallback_search_results ctx, "Fallback Agent")
  else
    match ((do
        if hasChildrenPred ctx.query.participant_ages then do
          tcall tenv TraceSite.sHandoff
          tcall tenv TraceSite.sStartAgentKid
          match env.kidSearch ctx weather_summary with
          | ExtResult.ok r => do
            tcall tenv TraceSite.sCompleteKid
            pure (r, "Kid-Friendly Agent")
          | ExtResult.exn => Except.error ()
        else do
          tcall tenv TraceSite.sStartAgentGeneral
          tcall tenv TraceSite.sLogToolGeneral
          match env.generalSearch ctx weather_summary with
          | ExtResult.ok r => do
            tcall tenv TraceSite.sCompleteGeneral
            pure (r, "Activity Search Agent")
          | ExtResult.exn => Except.error ()) : Except Unit (SearchResult × String)) with
    | Except.ok rs => pure rs
    | Except.error _ => do
      tcall tenv TraceSite.sLogError
      pure (create_fallback_search_results ctx, "Fallback Agent")

/-- _generate_trip_plan with every tracer call site explicit. start_agent
(line 360) is outside the try of lines 366-387; the except handler (lines
388-392) performs two tracer calls before returning the fallback plan. -/
def generateTripPlanT (tenv : TracerEnv) (agents_initialized : Bool) (env : Env)
    (ctx : TripContext) (search_results : SearchResult) (weather_info : WeatherAnalysis) :
    Except Unit TripPlan := do
  if agents_initialized = false then
    pure (create_fallback_plan ctx)
  else do
    tcall tenv TraceSite.gStartAgent
    match ((do
        tcall tenv TraceSite.gLogTool
        match env.synthesize ctx search_results weather_info with
        | ExtResult.ok p => do
          tcall tenv TraceSite.gLogResponse
          tcall tenv TraceSite.gCompleteOk
          pure p
        | ExtResult.exn => Except.error ()) : Except Unit TripPlan) with
    | Except.ok p => pure p
    | Except.error _ => do
      tcall tenv TraceSite.gLogError
      tcall tenv TraceSite.gCompleteFail
      pure (create_fallback_plan ctx)

/-- The body of the try block of run() (manager_gcp.py lines 100-117): the
three stages in sequence followed by the workflow-complete tracer call. -/
def runTryBody (tenv : TracerEnv) (agents_initialized : Bool) (env : Env)
    (trip_context : TripContext) : Except Unit TripPlan := do
  let w ← getWeatherInfoT tenv agents_initialized env trip_context
  let rs ← searchForActivitiesT tenv agents_initialized env trip_context w.summary
  let plan ← generateTripPlanT tenv agents_initialized env trip_context rs.1 w
  tcall tenv TraceSite.completeWorkflowOk
  pure plan

/-- run() with every tracer call site explicit (manager_gcp.py lines 72-123).
start_workflow (line 85) runs before the try of lines 100-117, so its raise
propagates to the caller. The except handler (lines 119-123) performs two
tracer calls before returning the fallback plan, so a raise of either of
those also propagates. -/
def runWithTracer (tenv : TracerEnv) (agents_initialized : Bool) (env : Env)
    (query : TripQuery) : Except Unit TripPlan := do
  tcall tenv TraceSite.startWorkflow
  let trip_context : TripContext := makeTripContext query
  match runTryBody tenv agents_initialized env trip_context with
  | Except.ok p => pure p
  | Except.error _ => do
    tcall tenv TraceSite.wmLogError
    tcall tenv TraceSite.completeWorkflowFail
    pure (create_fallback_plan trip_context)

/-- The Observer behaviour in which no tracer call raises. -/
def tenvOK : TracerEnv := fun _ => false

/-- The Observer behaviour in which exactly the workflow-start call raises. -/
def tenvStartFails : TracerEnv := fun s => decide (s = TraceSite.startWorkflow)

/-- The end-to-end scenario query of the specification: Toronto, 2025-12-01
to 2025-12-14, two adults aged 32 and 35. -/
def qToronto : TripQuery :=
  { start_date := "2025-12-01", end_date := "2025-12-14", location := "Toronto"
    participant_number := 2, participant_ages := [32, 35] }

/-- A family query with two children (ages 8 and 10) and two adults. -/
def qKids : TripQuery :=
  { start_date := "2025-07-01", end_date := "2025-07-05", location := "Paris"
    participant_number := 4, participant_ages := [8, 10, 35, 37] }

/-- A query whose ages list contains a single child. -/
def qOneKid : TripQuery :=
  { start_date := "2025-01-01", end_date := "2025-01-02", location := "Lyon"
    participant_number := 1, participant_ages := [8] }

/-- A malformed query: end_date before start_date and empty location. -/
def qBad : TripQuery :=
  { start_date := "2025-12-14", end_date := "2025-12-01", location := ""
    participant_number := 2, participant_ages := [32, 35] }

/-- The environment in which every external-capability call raises. -/
def envAllRaise : Env :=
  { analyzeWeather := fun _ => ExtResult.exn
    kidSearch := fun _ _ => ExtResult.exn
    generalSearch := fun _ _ => ExtResult.exn
    synthesize := fun _ _ _ => ExtResult.exn }

/-- An environment whose general search succeeds with an empty activity list
(as the repository's general agent can: the early return at
search_agent_gcp.py lines 175-179, or a parse of zero accumulated results). -/
def envGeneralEmpty : Env :=
  { analyzeWeather := fun _ => ExtResult.exn
    kidSearch := fun _ _ => ExtResult.exn
    generalSearch := fun _ _ => ExtResult.ok
      { activities := [], search_summary := "Found 0 activities in Toronto suitable for 2 participants." }
    synthesize := fun _ _ _ => ExtResult.exn }

/-- An environment whose kid-friendly search succeeds with an empty activity
list (the zero-activities scenario of the specification's tie-break rule). -/
def envKidEmpty : Env :=
  { analyzeWeather := fun _ => ExtResult.exn
    kidSearch := fun _ _ => ExtResult.ok
      { activities := [], search_summary := "Kid-friendly search completed with basic recommendations" }
    generalSearch := fun _ _ => ExtResult.exn
    synthesize := fun _ _ _ => ExtResult.exn }

/-- The deep environment in which every Gemini interaction fails. -/
def dAllFail : DeepEnv :=
  { weatherOutcome := ExtResult.exn
    generalOutcome := ExtResult.exn
    kidModelText := ExtResult.exn
    recModelParsed := ExtResult.exn }

/-- A deep environment in which the general agent's chat loop ends in its
child-detected early return (an empty SearchResult) and the recommendation
model's response text yields no parsed activities: both are real code paths
of search_agent_gcp.py (lines 175-179) and recommender_agent_gcp.py (a
response shorter than 100 characters skips the extraction). -/
def dDegenerate : DeepEnv :=
  { weatherOutcome := ExtResult.exn
    generalOutcome := ExtResult.ok
      { activities := []
        search_summary := "Children detected (ages: [5]). Recommend using kid-friendly activity search for better results." }
    kidModelText := ExtResult.exn
    recModelParsed := ExtResult.ok [] }

/-- The Observer behaviour in which exactly one mid-stage tracer call (the
weather stage's start_agent) raises. -/
def tenvWeatherStartFails : TracerEnv := fun s => decide (s = TraceSite.wStartAgent)

/-- A string append with a non-empty left part is non-empty. -/
theorem str_append_ne_empty (s t : String) (hs : s ≠ "") : s ++ t ≠ "" := by
  cases s with
  | mk sd =>
    cases t with
    | mk td =>
      intro h
      apply hs
      have h2 : sd ++ td = [] := by
        have h3 := congrArg String.data h
        simpa using h3
      have h4 : sd = [] := (List.append_eq_nil.mp h2).1
      rw [h4]

/-- C3: the routing predicate deciding the kid-friendly path (the inline
`any(age < CHILD_AGE_THRESHOLD ...)` of manager_gcp.py line 298, which agrees
with check_child_threshold's meets_threshold field) is true iff some age in
the list is strictly below the fixed threshold 12; it is false on [32, 35],
true on [8, 10, 35, 37] and false on [12]. -/
theorem C3_child_routing_predicate :
    (∀ ages : List Int,
      hasChildrenPred ages = (check_child_threshold ages CHILD_AGE_THRESHOLD).meets_threshold)
    ∧ (∀ ages : List Int,
      hasChildrenPred ages = true ↔ ∃ age ∈ ages, age < CHILD_AGE_THRESHOLD)
    ∧ hasChildrenPred [32, 35] = false
    ∧ hasChildrenPred [8, 10, 35, 37] = true
    ∧ hasChildrenPred [12] = false := by
  refine ⟨fun ages => rfl, fun ages => ?_, by decide, by decide, by decide⟩
  simp [hasChildrenPred, List.any_eq_true]

/-- C9 counterexample: run() builds its TripContext as TripContext(query=query)
(manager_gcp.py line 98), so for the ages list [8] the cached flag is false
although an age below 12 is present — the claimed invariant
meets_child_threshold = (some age < 12) fails on this input. -/
theorem C9_flag_not_computed_counterexample :
    (makeTripContext qOneKid).meets_child_threshold = false
    ∧ hasChildrenPred qOneKid.participant_ages = true := by
  exact ⟨rfl, by decide⟩

/-- C9 amended: the derived flag is never computed — the TripContext built by
run() always carries the default false — and the routing decision of the
search stage is instead recomputed from the query's ages: the kid-friendly
capability is called in a run exactly when some age is below 12. -/
theorem C9_flag_default_routing_recomputes (env : Env) (q : TripQuery) :
    (makeTripContext q).meets_child_threshold = false
    ∧ ((Event.callKidSearch ∈ (runT true env q).2) ↔ hasChildrenPred q.participant_ages = true) := by
  refine ⟨rfl, ?_⟩
  cases hc : hasChildrenPred q.participant_ages with
  | true =>
    simp [runT, getWeatherInfo, searchForActivities, generateTripPlan, makeTripContext, hc]
  | false =>
    simp [runT, getWeatherInfo, searchForActivities, generateTripPlan, makeTripContext, hc]

/-- C10: the kid-friendly agent can never deliver zero activities — its
response-parsing path returns at least the seven-entry base catalog whatever
the model's response text, its exception-fallback path returns exactly two
activities, and hence find_kid_friendly_activities always returns a
non-empty activity list. -/
theorem C10_kid_agent_never_empty :
    (∀ (text : String) (ctx : TripContext) (ages : List Int),
      7 ≤ (parse_kid_friendly_response text ctx ages).activities.length)
    ∧ (∀ (ctx : TripContext) (ages : List Int),
      (create_fallback_kid_activities ctx ages).activities.length = 2)
    ∧ (∀ (o : ExtResult String) (ctx : TripContext),
      (find_kid_friendly_activities o ctx).activities ≠ []) := by
  refine ⟨fun text ctx ages => ?_, fun ctx ages => rfl, fun o ctx => ?_⟩
  · simp only [parse_kid_friendly_response, kid_base_activities, List.length_append,
      List.length_cons, List.length_nil]
    omega
  · cases o with
    | ok text =>
      simp [find_kid_friendly_activities, parse_kid_friendly_response, kid_base_activities]
    | exn =>
      simp [find_kid_friendly_activities, create_fallback_kid_activities]

/-- C1 counterexample: with the repository's own degenerate-but-successful
code paths (the general agent's child-detected early return yielding an
empty SearchResult, and a recommendation response from which no activities
are parsed), run() returns a TripPlan whose recommended_activities list is
empty — refuting the claim that the list is always non-empty. -/
theorem C1_run_nonempty_counterexample :
    (runDeep dDegenerate qToronto).1.recommended_activities = [] := by
  rfl

/-- C2 counterexample: for a malformed TripQuery (end_date before start_date
and empty location), run() does not abort: the weather stage executes, and a
TripPlan (here the all-fallback plan, carrying the empty location) is
returned to the caller — no ValidationError is raised anywhere. -/
theorem C2_no_validation_counterexample :
    (Event.stageWeather ∈ (runT true envAllRaise qBad).2)
    ∧ (runT true envAllRaise qBad).1.location = ""
    ∧ (runT true envAllRaise qBad).1.recommended_activities.length = 1 := by
  refine ⟨?_, rfl, rfl⟩
  decide

/-- C4 counterexample: when the invoked general search capability succeeds
with an empty activity list, _search_for_activities adopts that empty
SearchResult instead of the local fallback — refuting "a returned
SearchResult is adopted only when its activity list is non-empty". -/
theorem C4_empty_result_adopted_counterexample :
    ((searchForActivities true envGeneralEmpty (makeTripContext qToronto) "w").1.1.activities
      = ([] : List ActivityResult))
    ∧ (searchForActivities true envGeneralEmpty (makeTripContext qToronto) "w").1.1
      ≠ create_fallback_search_results (makeTripContext qToronto) := by
  refine ⟨rfl, ?_⟩
  decide

/-- C5 counterexample: when the kid-friendly path is selected and the
kid-oriented search returns zero activities, the Planner does adopt the
empty result as-is (it does not fall back to the local fallback catalog);
only the no-re-routing half of the claim holds (zero general-search calls). -/
theorem C5_no_fallback_on_empty_kid_counterexample :
    ((searchForActivities true envKidEmpty (makeTripContext qKids) "w").1.1.activities
      = ([] : List ActivityResult))
    ∧ (searchForActivities true envKidEmpty (makeTripContext qKids) "w").1.1
      ≠ create_fallback_search_results (makeTripContext qKids)
    ∧ (runT true envKidEmpty qKids).2.count Event.callGeneralSearch = 0 := by
  refine ⟨rfl, ?_, ?_⟩ <;> decide

/-- C8 counterexample: a failure of the workflow-start tracer call aborts
run() — the exception propagates to the caller instead of a TripPlan being
returned, refuting the claim for the workflow-start event. -/
theorem C8_start_workflow_failure_counterexample :
    runWithTracer tenvStartFails true envAllRaise qToronto = Except.error () := by
  rfl

/-- C9-related sanity check is in C9_flag_not_computed_counterexample above;
this records the C1-amended behaviour: whenever the synthesis capability
raises (for any agents_initialized flag, environment and query), run()
returns the manager's local fallback plan, whose recommended_activities list
has exactly one entry — in particular it is non-empty, and the run completes
without propagating the stage failures. -/
theorem C1_run_fallback_plan_nonempty (ai : Bool) (env : Env) (q : TripQuery)
    (hsyn : ∀ ctx sr w, env.synthesize ctx sr w = ExtResult.exn) :
    (runPlan ai env q).recommended_activities.length = 1 := by
  cases ai with
  | false =>
    simp [runPlan, runT, generateTripPlan, create_fallback_plan]
  | true =>
    simp [runPlan, runT, generateTripPlan, hsyn, create_fallback_plan]

/-- C1 witness: the hypothesis and conclusion of C1_run_fallback_plan_nonempty
at the all-raising environment and the Toronto query. -/
theorem C1_run_fallback_plan_nonempty_witness :
    (∀ ctx sr w, envAllRaise.synthesize ctx sr w = ExtResult.exn)
    ∧ (runPlan true envAllRaise qToronto).recommended_activities.length = 1 := by
  refine ⟨fun ctx sr w => rfl, ?_⟩
  exact C1_run_fallback_plan_nonempty true envAllRaise qToronto fun ctx sr w => rfl

/-- C2 amended: no input validation exists — for every TripQuery (malformed
or not), every agents_initialized flag and every environment, run() enters
all three stages and returns a TripPlan; there is no ValidationError abort
path before the stages. -/
theorem C2_all_stages_execute (ai : Bool) (env : Env) (q : TripQuery) :
    Event.stageWeather ∈ (runT ai env q).2
    ∧ Event.stageSearch ∈ (runT ai env q).2
    ∧ Event.stageSynthesize ∈ (runT ai env q).2 := by
  refine ⟨?_, ?_, ?_⟩ <;> simp [runT]

/-- C4 amended: the manager's local fallback SearchResult has exactly five
location-templated activities and is adopted whenever the invoked search
capability raises; but a successfully returned SearchResult is adopted
unconditionally — including when its activity list is empty — rather than
only when it is non-empty. -/
theorem C4_search_adoption (env : Env) (ctx : TripContext) (ws : String) :
    ((create_fallback_search_results ctx).activities.length = 5
      ∧ ∀ a ∈ (create_fallback_search_results ctx).activities,
          a.location = ctx.query.location)
    ∧ ((if hasChildrenPred ctx.query.participant_ages then env.kidSearch ctx ws
          else env.generalSearch ctx ws) = ExtResult.exn →
        (searchForActivities true env ctx ws).1.1 = create_fallback_search_results ctx)
    ∧ (∀ r, (if hasChildrenPred ctx.query.participant_ages then env.kidSearch ctx ws
          else env.generalSearch ctx ws) = ExtResult.ok r →
        (searchForActivities true env ctx ws).1.1 = r) := by
  refine ⟨⟨rfl, ?_⟩, ?_, ?_⟩
  · intro a ha
    simp [create_fallback_search_results] at ha
    rcases ha with rfl | rfl | rfl | rfl | rfl <;> rfl
  · intro h
    cases hc : hasChildrenPred ctx.query.participant_ages with
    | true =>
      rw [hc] at h
      simp at h
      simp [searchForActivities, hc, h]
    | false =>
      rw [hc] at h
      simp at h
      simp [searchForActivities, hc, h]
  · intro r h
    cases hc : hasChildrenPred ctx.query.participant_ages with
    | true =>
      rw [hc] at h
      simp at h
      simp [searchForActivities, hc, h]
    | false =>
      rw [hc] at h
      simp at h
      simp [searchForActivities, hc, h]

/-- C4 witness: for the Toronto adult query with a raising environment, the
search stage adopts the five-activity local fallback (the raise-branch
implication of C4_search_adoption discharged at a concrete input). -/
theorem C4_search_adoption_witness :
    (searchForActivities true envAllRaise (makeTripContext qToronto) "w").1.1
      = create_fallback_search_results (makeTripContext qToronto) :=
  (C4_search_adoption envAllRaise (makeTripContext qToronto) "w").2.1 rfl

/-- C5 amended: if the kid-friendly path is selected and the kid-oriented
search succeeds (with any result, in particular zero activities), the
Planner adopts that result as-is and the general search capability is
invoked zero times in the run; it does not fall back to the local catalog. -/
theorem C5_kid_empty_no_general_call (env : Env) (q : TripQuery) (r : SearchResult)
    (hk : hasChildrenPred q.participant_ages = true)
    (hok : env.kidSearch (makeTripContext q)
      (getWeatherInfo true env (makeTripContext q)).1.summary = ExtResult.ok r) :
    (searchForActivities true env (makeTripContext q)
      (getWeatherInfo true env (makeTripContext q)).1.summary).1.1 = r
    ∧ (runT true env q).2.count Event.callGeneralSearch = 0 := by
  constructor
  · have hok2 := hok
    simp only [makeTripContext] at hok2
    simp [searchForActivities, makeTripContext, hk, hok2]
  · simp [runT, searchForActivities, generateTripPlan, getWeatherInfo, makeTripContext, hk]

/-- C5 witness: the kid-empty scenario at a concrete input — both hypotheses
of C5_kid_empty_no_general_call discharged for envKidEmpty and qKids. -/
theorem C5_kid_empty_no_general_call_witness :
    (searchForActivities true envKidEmpty (makeTripContext qKids)
      (getWeatherInfo true envKidEmpty (makeTripContext qKids)).1.summary).1.1
      = { activities := []
          search_summary := "Kid-friendly search completed with basic recommendations" }
    ∧ (runT true envKidEmpty qKids).2.count Event.callGeneralSearch = 0 :=
  C5_kid_empty_no_general_call envKidEmpty qKids _ (by decide) rfl

/-- C6: if the weather capability raises, the run uses the basic mock
WeatherAnalysis, whose temperature range [18, 27] satisfies
temperature_range[0] <= temperature_range[1]; the returned TripPlan's
weather_summary equals that analysis's summary and is non-empty; the weather
failure is absorbed inside the weather stage and the run completes. -/
theorem C6_weather_failure_recovery (d : DeepEnv) (q : TripQuery)
    (h : d.weatherOutcome = ExtResult.exn) :
    (getWeatherInfo true (envOfDeep d) (makeTripContext q)).1
      = get_weather_mock q.location q.start_date q.end_date
    ∧ (∃ lo hi, (getWeatherInfo true (envOfDeep d) (makeTripContext q)).1.temperature_range
        = [lo, hi] ∧ lo ≤ hi)
    ∧ (runDeep d q).1.weather_summary
      = (get_weather_mock q.location q.start_date q.end_date).summary
    ∧ (runDeep d q).1.weather_summary ≠ "" := by
  have hw : (getWeatherInfo true (envOfDeep d) (makeTripContext q)).1
      = get_weather_mock q.location q.start_date q.end_date := by
    simp [getWeatherInfo, envOfDeep, h, makeTripContext]
  have hsum : (runDeep d q).1.weather_summary
      = (get_weather_mock q.location q.start_date q.end_date).summary := by
    cases hr : d.recModelParsed with
    | ok parsed =>
      simp [runDeep, runT, generateTripPlan, envOfDeep, rec_create_trip_plan, hr,
        rec_parse_trip_plan_response, getWeatherInfo, h, makeTripContext]
    | exn =>
      simp [runDeep, runT, generateTripPlan, envOfDeep, rec_create_trip_plan, hr,
        rec_create_fallback_trip_plan, getWeatherInfo, h, makeTripContext]
  refine ⟨hw, ⟨18, 27, by rw [hw]; rfl, by decide⟩, hsum, ?_⟩
  rw [hsum]
  simp only [get_weather_mock]
  apply str_append_ne_empty
  decide

/-- C6 witness: the hypothesis and conclusion of C6_weather_failure_recovery
at the all-failing deep environment and the Toronto query. -/
theorem C6_weather_failure_recovery_witness :
    dAllFail.weatherOutcome = ExtResult.exn
    ∧ ((getWeatherInfo true (envOfDeep dAllFail) (makeTripContext qToronto)).1
        = get_weather_mock qToronto.location qToronto.start_date qToronto.end_date
      ∧ (∃ lo hi,
          (getWeatherInfo true (envOfDeep dAllFail) (makeTripContext qToronto)).1.temperature_range
            = [lo, hi] ∧ lo ≤ hi)
      ∧ (runDeep dAllFail qToronto).1.weather_summary
        = (get_weather_mock qToronto.location qToronto.start_date qToronto.end_date).summary
      ∧ (runDeep dAllFail qToronto).1.weather_summary ≠ "") :=
  ⟨rfl, C6_weather_failure_recovery dAllFail qToronto rfl⟩

/-- C7: for TripQuery("2025-12-01", "2025-12-14", "Toronto", 2, [32, 35])
with every Gemini interaction failing, run() returns a TripPlan with
location "Toronto", dates "2025-12-01 to 2025-12-14", a participants summary
containing "2", and exactly the fixed fallback packing list. -/
theorem C7_toronto_all_fallback :
    (runDeep dAllFail qToronto).1.location = "Toronto"
    ∧ (runDeep dAllFail qToronto).1.dates = "2025-12-01 to 2025-12-14"
    ∧ strContainsSub (runDeep dAllFail qToronto).1.participants_summary "2" = true
    ∧ (runDeep dAllFail qToronto).1.packing_list
      = ["Comfortable clothing", "Walking shoes", "Water", "Snacks"] := by
  refine ⟨rfl, rfl, by decide, rfl⟩

/-- C8 amended: a tracer failure inside any stage (stage-start,
stage-complete, handoff, tool-call, response or error events) is caught by
run()'s outer exception handler, which still returns a TripPlan — provided
the workflow-start tracer call and the handler's own two tracer calls
(log_error and complete_workflow) do not themselves raise; failures of
those three calls propagate to the caller. -/
theorem C8_tracer_failures_contained (tenv : TracerEnv) (ai : Bool) (env : Env) (q : TripQuery)
    (h1 : tenv TraceSite.startWorkflow = false)
    (h2 : tenv TraceSite.wmLogError = false)
    (h3 : tenv TraceSite.completeWorkflowFail = false) :
    ∃ p, runWithTracer tenv ai env q = Except.ok p := by
  cases hB : runTryBody tenv ai env (makeTripContext q) with
  | ok p =>
    refine ⟨p, ?_⟩
    simp [runWithTracer, tcall, h1, hB, Bind.bind, Except.bind, Pure.pure, Except.pure]
  | error e =>
    refine ⟨create_fallback_plan (makeTripContext q), ?_⟩
    simp [runWithTracer, tcall, h1, h2, h3, hB, Bind.bind, Except.bind, Pure.pure, Except.pure]

/-- C8 witness: with a tracer that raises exactly at the weather stage's
start_agent call, run() still returns a TripPlan (the hypotheses of
C8_tracer_failures_contained discharged at this concrete Observer). -/
theorem C8_tracer_failures_contained_witness :
    (tenvWeatherStartFails TraceSite.startWorkflow = false
      ∧ tenvWeatherStartFails TraceSite.wmLogError = false
      ∧ tenvWeatherStartFails TraceSite.completeWorkflowFail = false)
    ∧ ∃ p, runWithTracer tenvWeatherStartFails true envAllRaise qToronto = Except.ok p :=
  ⟨⟨rfl, rfl, rfl⟩,
    C8_tracer_failures_contained tenvWeatherStartFails true envAllRaise qToronto rfl rfl rfl⟩
